import Mathlib

/-!
Verification development for the butler robot service
(src/butler_robot/scripts/butler_robot.py).

The control logic of `RobotButler` is embedded shallowly:

* Python string primitives used by the script (`str.strip`, `str.split`,
  `str.lower`, the substring test `in`) are embedded as structurally
  recursive functions over `String.data`, so that every definition
  evaluates inside the kernel.
* The mutable fields of the `RobotButler` object become the `Butler`
  structure; methods become functions from `Butler` (plus the inputs the
  method reads: console lines, navigation outcomes) to `Butler` together
  with the observable effects (navigation targets issued, booleans
  returned).
* The blocking navigation stack (`send_goal`) is an external collaborator:
  its terminal outcome is an input `Bool` and each issued target is
  recorded in a list of waypoint names, in order.
* The delivery drain loop runs concurrently with the queue-modification
  listener and the cancellation handler; its interleavings are embedded as
  a step function `stepEv` over events (one loop iteration, a listener
  remove/add command, the handler's state write).
* The lock discipline of the script is embedded as per-method action
  traces annotated with whether `self.lock` is held.
-/

/-! ## Python string primitives -/

/-- ASCII whitespace as recognized by Python `str.strip` on console input. -/
def isWs (c : Char) : Bool := c == ' ' || c == '\t' || c == '\n' || c == '\r'

/-- Drop the longest run of characters satisfying `p` from the front. -/
def dropLeading (p : Char → Bool) : List Char → List Char
  | [] => []
  | c :: cs => if p c then dropLeading p cs else c :: cs

/-- Embedding of Python `str.strip()`: remove leading and trailing whitespace. -/
def pyStrip (s : String) : String :=
  ⟨dropLeading isWs (dropLeading isWs s.data.reverse).reverse⟩

/-- Embedding of Python `str.split(sep)` for a one-character separator:
`splitChars ',' "a,b".data = [['a'], ['b']]` and the empty string yields `[[]]`. -/
def splitChars (sep : Char) : List Char → List (List Char)
  | [] => [[]]
  | c :: cs =>
    let r := splitChars sep cs
    if c == sep then [] :: r
    else
      match r with
      | [] => [[c]]
      | g :: gs => (c :: g) :: gs

/-- Embedding of Python `str.split(sep)` on `String`. -/
def pySplit (sep : Char) (s : String) : List String :=
  (splitChars sep s.data).map (fun l => ⟨l⟩)

/-- Embedding of Python `str.lower()`. -/
def pyLower (s : String) : String := ⟨s.data.map Char.toLower⟩

/-- Embedding of the Python substring test `pat in s` on character lists. -/
def subInChars (p : List Char) : List Char → Bool
  | [] => p.isEmpty
  | c :: cs => p.isPrefixOf (c :: cs) || subInChars p cs

/-- Embedding of the Python substring test `pat in s` on `String`. -/
def strIn (p s : String) : Bool := subInChars p.data s.data

/-! ## Data model (butler_robot.py lines 12-44) -/

/-- Robot logical state constant, line 22. -/
def IDLE : String := "IDLE"

/-- Robot logical state constant, line 23. -/
def DELIVERY : String := "DELIVERY"

/-- Robot logical state constant, line 24 (declared but never assigned by the script). -/
def WAITING_CONFIRMATION : String := "WAITING_CONFIRMATION"

/-- Robot logical state constant, line 25. -/
def CANCELED : String := "CANCELED"

/-- Key set of the static `WAYPOINTS` registry (lines 12-18).  The coordinate
triples attached to each key are only ever forwarded to `send_goal` and never
influence a control decision, so the embedding keeps the names. -/
def WAYPOINTS : List String := ["kitchen", "home", "table1", "table2", "table3"]

/-- The mutable fields of `RobotButler` set up in `__init__` (lines 37-41):
logical state, current goal location (`None` initially), the order queue, and
the Cancel-Pending flag `is_goal_cancel`. -/
structure Butler where
  state : String
  goal_location : Option String
  order_queue : List String
  is_goal_cancel : Bool
deriving DecidableEq

/-! ## Forced recovery moves (lines 242-304)

`send_goal` (lines 111-129) blocks until the freshly created navigation client
reports a terminal status; the embedding takes that outcome as an input `Bool`
and records each issued target waypoint name. -/

/-- Embedding of `return_to_kitchen` (lines 282-296): `send_goal` to the kitchen; afterwards,
if the client reports `SUCCEEDED` and `is_goal_cancel` is set, chain into
`return_to_home` and clear the flag.  `kitchenOk` is the navigation outcome of
the kitchen `send_goal`; the returned list is the navigation targets issued. -/
def return_to_kitchen (st : Butler) (kitchenOk : Bool) : Butler × List String :=
  if kitchenOk && st.is_goal_cancel then
    ({ st with is_goal_cancel := false }, ["kitchen", "home"])
  else
    (st, ["kitchen"])

/-- Embedding of `signal_handler` (lines 48-67): under the lock, set state to `CANCELED`,
cancel the in-flight goal, then route recovery on the current goal location:
`"kitchen"` forces home; a location containing `"table"` sets the Cancel-Pending
flag and forces `return_to_kitchen`; anything else (including `None`) forces
home.  Returns the updated state and the navigation targets issued. -/
def signal_handler (st : Butler) (kitchenOk : Bool) : Butler × List String :=
  let st1 : Butler := { st with state := CANCELED }
  match st1.goal_location with
  | some loc =>
    if loc == "kitchen" then (st1, ["home"])
    else if strIn "table" loc then
      return_to_kitchen { st1 with is_goal_cancel := true } kitchenOk
    else (st1, ["home"])
  | none => (st1, ["home"])

/-! ## Order intake and queue mutation (lines 69-95, 254-271, 209-238) -/

/-- The validation applied to every user entry (lines 85, 215, 263): the entry is
stripped and prefixed with "table", unconditionally. -/
def tableName (t : String) : String := "table" ++ pyStrip t

/-- Embedding of `valid_tables` as computed by `get_orders_from_user` (lines 82-87): split the
input on commas, prefix each stripped entry with `"table"`, keep the names that
are keys of `WAYPOINTS`.  No check against the current queue is performed. -/
def get_orders_valid (order_input : String) : List String :=
  ((pySplit ',' order_input).map tableName).filter (fun n => WAYPOINTS.contains n)

/-- One intake iteration after reading `order_input` (lines 81-95): under the
lock, append all valid tables to the queue; the returned `Bool` records whether
a `process_order` thread was started (line 92).  The logical state is not
touched. -/
def get_orders_step (st : Butler) (order_input : String) : Butler × Bool :=
  let valid := get_orders_valid order_input
  if valid.isEmpty then (st, false)
  else ({ st with order_queue := st.order_queue ++ valid }, true)

/-- Embedding of `valid_tables` as computed by `add_tables` (lines 259-265): entries whose
prefixed name is a key of `WAYPOINTS` and is not already in the order queue
as it was before the batch is appended.  The accumulating batch itself is not
consulted. -/
def add_tables_valid (queue : List String) (tables : List String) : List String :=
  (tables.map tableName).filter (fun n => WAYPOINTS.contains n && !queue.contains n)

/-- Embedding of `add_tables` (lines 254-271) applied to the raw input line. -/
def add_tables (st : Butler) (table_input : String) : Butler :=
  let valid := add_tables_valid st.order_queue (pySplit ',' table_input)
  if valid.isEmpty then st
  else { st with order_queue := st.order_queue ++ valid }

/-- Outcome of the `remove` command of `modify_orders_while_moving`
(lines 209-238): the updated object, the forced navigation targets issued,
whether `cancel_goal` was called on the in-flight goal, and whether the
listener re-prompts because no entry was valid (lines 219-223). -/
structure RemoveResult where
  butler : Butler
  moves : List String
  goal_canceled : Bool
  retry : Bool
deriving DecidableEq

/-- The `remove` command of `modify_orders_while_moving` (lines 209-238):
collect the prefixed entries present in the queue; if none, re-prompt; else
erase each collected entry (first occurrence, guarded by membership exactly as
`list.remove` is); if the queue became empty, cancel the in-flight goal, force
a home return and force state to `IDLE`. -/
def modify_remove (st : Butler) (table_input : String) : RemoveResult :=
  let tables_to_remove :=
    ((pySplit ',' table_input).map tableName).filter (fun n => st.order_queue.contains n)
  if tables_to_remove.isEmpty then
    { butler := st, moves := [], goal_canceled := false, retry := true }
  else
    let q := tables_to_remove.foldl (fun acc n => acc.erase n) st.order_queue
    if q.isEmpty then
      { butler := { st with order_queue := q, state := IDLE },
        moves := ["home"], goal_canceled := true, retry := false }
    else
      { butler := { st with order_queue := q }, moves := [], goal_canceled := false,
        retry := false }

/-! ## The delivery state machine (lines 131-181) -/

/-- The guarded entry of `process_order` (lines 136-143): under the lock, a
state other than `IDLE` rejects the request and changes nothing; otherwise the
state becomes `DELIVERY`.  The `Bool` records whether the cycle began. -/
def process_order_begin (st : Butler) : Butler × Bool :=
  if st.state ≠ IDLE then (st, false)
  else ({ st with state := DELIVERY }, true)

/-- The epilogue of `process_order` after the drain loop (lines 176-181): a
`CANCELED` state performs the kitchen-return recovery, anything else returns
home; either way the state is then forced to `IDLE`. -/
def process_order_finish (st : Butler) (kitchenOk : Bool) : Butler × List String :=
  if st.state = CANCELED then
    let (st1, moves) := return_to_kitchen st kitchenOk
    ({ st1 with state := IDLE }, moves)
  else
    ({ st with state := IDLE }, ["home"])

/-- A delivery cycle in flight: the shared object plus the list of table
destinations the drain loop has popped and navigated toward, in order. -/
structure CycleSt where
  butler : Butler
  visited : List String
deriving DecidableEq

/-- Interleaved events acting on a cycle: `pop` is one iteration of the drain
loop of `process_order`; `removeEv` / `addEv` are the listener commands of
`modify_orders_while_moving` carrying the raw console line; `cancelEv` is the
`state = CANCELED` write of `signal_handler` (line 51). -/
inductive Ev where
  | pop
  | removeEv (table_input : String)
  | addEv (table_input : String)
  | cancelEv
deriving DecidableEq

/-- One interleaving step.  A `pop` reproduces lines 161-163: if the guard
(queue non-empty and state not `CANCELED`) holds, the head is popped, becomes
the goal location and is navigated toward; the navigation and confirmation
outcomes at the popped table do not affect the queue (both failure paths
`continue`, lines 165-174), so they are not part of the cycle state. -/
def stepEv (s : CycleSt) (e : Ev) : CycleSt :=
  match e with
  | .pop =>
    if s.butler.state = CANCELED then s
    else
      match s.butler.order_queue with
      | [] => s
      | t :: rest =>
        { butler := { s.butler with order_queue := rest, goal_location := some t },
          visited := s.visited ++ [t] }
  | .removeEv input => { s with butler := (modify_remove s.butler input).butler }
  | .addEv input => { s with butler := add_tables s.butler input }
  | .cancelEv => { s with butler := { s.butler with state := CANCELED } }

/-- Run a sequence of interleaved events. -/
def runEvs (s : CycleSt) (evs : List Ev) : CycleSt := evs.foldl stepEv s

/-! ## The confirmation gate (lines 306-365) -/

/-- Terminal condition of the gate's prompt loop. -/
inductive GateEnd where
  | yesEnd
  | noEnd
  | canceledEnd
  | elapsedEnd
deriving DecidableEq

/-- Whether one attempt outcome (`none` is an expired 5 s `timed_input`) is a
recognized yes/no answer after `strip` and `lower`. -/
def recognizedAnswer : Option String → Bool
  | none => false
  | some line => pyLower (pyStrip line) == "yes" || pyLower (pyStrip line) == "no"

/-- The `while` loop of `wait_for_confirmation` (lines 326-348).  Each script
element is one iteration: the `timed_input` outcome paired with whether
`self.state` reads `CANCELED` at that iteration's check (line 346).  An
exhausted script is the 30 s window elapsing.  Note the order in the source: a
recognized `yes`/`no` breaks out of the loop (lines 333-342) before the
`CANCELED` check runs; only an absent or unrecognized input reaches it. -/
def gate_loop : List (Option String × Bool) → GateEnd
  | [] => .elapsedEnd
  | (attempt, canceledNow) :: rest =>
    match attempt with
    | some line =>
      if pyLower (pyStrip line) == "yes" then .yesEnd
      else if pyLower (pyStrip line) == "no" then .noEnd
      else if canceledNow then .canceledEnd
      else gate_loop rest
    | none => if canceledNow then .canceledEnd else gate_loop rest

/-- Embedding of `wait_for_confirmation` (lines 315-365): record the location as the goal
location, run the prompt loop, and on an elapsed window perform the
location-specific recovery: a location containing `"table"` forces
`return_to_kitchen` then `return_to_home`; anything else forces
`return_to_home`.  Returns the updated object, the `Bool` the caller receives,
and the forced navigation targets issued. -/
def wait_for_confirmation (st : Butler) (location : String)
    (script : List (Option String × Bool)) (kitchenOk : Bool) :
    Butler × Bool × List String :=
  let st1 : Butler := { st with goal_location := some location }
  match gate_loop script with
  | .yesEnd => (st1, true, [])
  | .noEnd => (st1, false, [])
  | .canceledEnd => (st1, false, [])
  | .elapsedEnd =>
    if strIn "table" location then
      let (st2, moves) := return_to_kitchen st1 kitchenOk
      (st2, false, moves ++ ["home"])
    else
      (st1, false, ["home"])

/-! ## Lock discipline traces (claim C9)

Each method of the script is a straight-line sequence of shared-state accesses,
lock operations and blocking calls; the sequences below transcribe concrete
execution paths line by line. -/

/-- Atomic actions relevant to the lock discipline. -/
inductive Act where
  | acquireLock
  | releaseLock
  | readState
  | writeState
  | readQueue
  | writeQueue
  | navBlocking
  | confirmBlocking
  | cancelGoalCall
deriving DecidableEq

/-- Annotate each action with whether `self.lock` is held when it runs, given
whether it is held on entry. -/
def lockAnnotated : List Act → Bool → List (Act × Bool)
  | [], _ => []
  | Act.acquireLock :: r, _ => (Act.acquireLock, true) :: lockAnnotated r true
  | Act.releaseLock :: r, _ => (Act.releaseLock, false) :: lockAnnotated r false
  | a :: r, held => (a, held) :: lockAnnotated r held

/-- An access to the order queue or the logical state. -/
def sharedAccess : Act → Bool
  | .readState => true
  | .writeState => true
  | .readQueue => true
  | .writeQueue => true
  | _ => false

/-- A blocking navigation or confirmation call. -/
def blockingCall : Act → Bool
  | .navBlocking => true
  | .confirmBlocking => true
  | _ => false

/-- Actions of `process_order` (lines 136-181) on the path where the kitchen is reached and
confirmed and one table is served: 136 acquire, 137 read state, 142 write state,
143 release, 148 blocking `move_to_kitchen`, 153 blocking confirmation gate,
161 read queue and read state (loop guard), 162 pop (queue write), 165 blocking
move, 169 blocking confirmation, 161 read queue and read state (guard re-check),
176 read state, 180 blocking `return_to_home`, 181 write state. -/
def process_order_acts : List Act :=
  [Act.acquireLock, Act.readState, Act.writeState, Act.releaseLock,
   Act.navBlocking, Act.confirmBlocking,
   Act.readQueue, Act.readState, Act.writeQueue,
   Act.navBlocking, Act.confirmBlocking,
   Act.readQueue, Act.readState,
   Act.readState, Act.navBlocking, Act.writeState]

/-- Actions of `modify_orders_while_moving` (lines 183-237) on the `remove` path that
empties the queue: 188 read state, 216 read queue (membership filter), 226 read
queue, 227 write queue (`remove`), 230 read queue (emptiness check), 234
`cancel_goal`, 235 blocking `return_to_home`, 236 write state.  The method
never touches `self.lock`. -/
def modify_orders_acts : List Act :=
  [Act.readState, Act.readQueue, Act.readQueue, Act.writeQueue, Act.readQueue,
   Act.cancelGoalCall, Act.navBlocking, Act.writeState]

/-- Actions of `signal_handler` (lines 48-67) on the table branch: 50 acquire, 51 write
state, 52 `cancel_goal`, 62 blocking `return_to_kitchen` (a `send_goal` that
waits for a terminal status), 67 release. -/
def signal_handler_acts : List Act :=
  [Act.acquireLock, Act.writeState, Act.cancelGoalCall, Act.navBlocking,
   Act.releaseLock]

/-! ## Helper lemmas -/

theorem contains_iff (l : List String) (a : String) : l.contains a = true ↔ a ∈ l := by
  simp [List.contains]

theorem foldl_erase_subset (names : List String) :
    ∀ q : List String, names.foldl (fun acc n => acc.erase n) q ⊆ q := by
  induction names with
  | nil => intro q; exact fun x hx => hx
  | cons n ns ih =>
    intro q
    exact (ih (q.erase n)).trans (List.erase_subset n q)

theorem modify_remove_queue_subset (st : Butler) (input : String) :
    (modify_remove st input).butler.order_queue ⊆ st.order_queue := by
  unfold modify_remove
  dsimp only
  split
  · exact fun x hx => hx
  · split
    · exact foldl_erase_subset _ _
    · exact foldl_erase_subset _ _

theorem add_tables_queue (st : Butler) (input : String) :
    (add_tables st input).order_queue =
      st.order_queue ++ add_tables_valid st.order_queue (pySplit ',' input) := by
  unfold add_tables
  dsimp only
  split
  · next h => simp [List.isEmpty_iff.mp h]
  · rfl

theorem drain_pop_all (q : List String) :
    ∀ (b : Butler) (vis : List String), b.state ≠ CANCELED → b.order_queue = q →
      (runEvs ⟨b, vis⟩ (List.replicate q.length Ev.pop)).visited = vis ++ q ∧
      (runEvs ⟨b, vis⟩ (List.replicate q.length Ev.pop)).butler.order_queue = [] := by
  induction q with
  | nil => intro b vis hs hq; simp [runEvs, hq]
  | cons t rest ih =>
    intro b vis hs hq
    have step1 : stepEv ⟨b, vis⟩ Ev.pop =
        ⟨{ b with order_queue := rest, goal_location := some t }, vis ++ [t]⟩ := by
      simp [stepEv, hs, hq]
    have hrun : runEvs ⟨b, vis⟩ (List.replicate (t :: rest).length Ev.pop) =
        runEvs ⟨{ b with order_queue := rest, goal_location := some t }, vis ++ [t]⟩
          (List.replicate rest.length Ev.pop) := by
      rw [List.length_cons, List.replicate_succ]
      show runEvs (stepEv ⟨b, vis⟩ Ev.pop) _ = _
      rw [step1]
    rw [hrun]
    have := ih { b with order_queue := rest, goal_location := some t } (vis ++ [t]) hs rfl
    simpa using this

theorem run_not_visited (evs : List Ev) :
    ∀ (s : CycleSt) (x : String), x ∉ s.butler.order_queue → x ∉ s.visited →
      (∀ inp, Ev.addEv inp ∈ evs → x ∉ (pySplit ',' inp).map tableName) →
      x ∉ (runEvs s evs).visited := by
  induction evs with
  | nil => intro s x _ hv _; exact hv
  | cons e rest ih =>
    intro s x hq hv hadd
    have hrest : ∀ inp, Ev.addEv inp ∈ rest → x ∉ (pySplit ',' inp).map tableName :=
      fun inp h => hadd inp (List.mem_cons_of_mem _ h)
    show x ∉ (runEvs (stepEv s e) rest).visited
    cases e with
    | pop =>
      by_cases hc : s.butler.state = CANCELED
      · rw [show stepEv s Ev.pop = s from by simp [stepEv, hc]]
        exact ih s x hq hv hrest
      · cases hq2 : s.butler.order_queue with
        | nil =>
          rw [show stepEv s Ev.pop = s from by simp [stepEv, hc, hq2]]
          exact ih s x hq hv hrest
        | cons t ts =>
          rw [hq2] at hq
          have hxt : x ≠ t := fun h => hq (h ▸ List.mem_cons_self t ts)
          have hxts : x ∉ ts := fun h => hq (List.mem_cons_of_mem _ h)
          rw [show stepEv s Ev.pop =
              ⟨{ s.butler with order_queue := ts, goal_location := some t },
                s.visited ++ [t]⟩ from by simp [stepEv, hc, hq2]]
          apply ih _ x hxts _ hrest
          intro hmem
          rcases List.mem_append.mp hmem with h | h
          · exact hv h
          · exact hxt (List.mem_singleton.mp h)
    | removeEv inp =>
      refine ih (stepEv s (Ev.removeEv inp)) x ?_ hv hrest
      intro hmem
      exact hq (modify_remove_queue_subset s.butler inp hmem)
    | addEv inp =>
      refine ih (stepEv s (Ev.addEv inp)) x ?_ hv hrest
      intro hmem
      have hsh : (stepEv s (Ev.addEv inp)).butler.order_queue =
          s.butler.order_queue ++ add_tables_valid s.butler.order_queue (pySplit ',' inp) := by
        simp [stepEv, add_tables_queue]
      rw [hsh] at hmem
      rcases List.mem_append.mp hmem with h | h
      · exact hq h
      · exact hadd inp (List.mem_cons_self _ _) (List.mem_of_mem_filter h)
    | cancelEv =>
      exact ih _ x hq hv hrest

theorem gate_loop_elapsed (script : List (Option String × Bool))
    (h : ∀ p ∈ script, recognizedAnswer p.1 = false ∧ p.2 = false) :
    gate_loop script = GateEnd.elapsedEnd := by
  induction script with
  | nil => rfl
  | cons p rest ih =>
    obtain ⟨h1, h2⟩ := h p (List.mem_cons_self _ _)
    have hrest := ih fun q hq => h q (List.mem_cons_of_mem _ hq)
    obtain ⟨attempt, canc⟩ := p
    cases attempt with
    | none =>
      simp only at h2
      simp [gate_loop, h2, hrest]
    | some line =>
      simp only [recognizedAnswer, Bool.or_eq_false_iff] at h1
      simp only at h2
      simp [gate_loop, h1.1, h1.2, h2, hrest]

theorem table_append_cancel (x y : String) (h : "table" ++ x = "table" ++ y) : x = y := by
  have hd := congrArg String.data h
  cases x with
  | mk lx =>
    cases y with
    | mk ly =>
      simp [String.data] at hd
      rw [hd]

theorem table_loc_ne_kitchen (loc : String) (h : strIn "table" loc = true) :
    (loc == "kitchen") = false := by
  cases hbeq : loc == "kitchen" with
  | false => rfl
  | true =>
    have heq : loc = "kitchen" := by simpa using hbeq
    rw [heq] at h
    exact absurd h (by decide)

/-! ## Claims -/

/-- Claim C1: a delivery cycle (`process_order`) can only begin when the logical
state is `IDLE`, in which case it immediately transitions the state to
`DELIVERY`; every invocation while the state is not `IDLE` is rejected and the
state, the order queue and the goal location are left unchanged. -/
theorem C1_delivery_cycle_entry (st : Butler) :
    (st.state ≠ IDLE → process_order_begin st = (st, false)) ∧
    (st.state = IDLE →
      process_order_begin st = ({ st with state := DELIVERY }, true)) := by
  constructor
  · intro h
    simp [process_order_begin, h]
  · intro h
    simp [process_order_begin, h]

theorem C1_delivery_cycle_entry_witness :
    process_order_begin ⟨DELIVERY, none, ["table1"], false⟩ =
      (⟨DELIVERY, none, ["table1"], false⟩, false) ∧
    process_order_begin ⟨IDLE, none, ["table1"], false⟩ =
      (⟨DELIVERY, none, ["table1"], false⟩, true) :=
  ⟨(C1_delivery_cycle_entry _).1 (by decide),
   (C1_delivery_cycle_entry _).2 rfl⟩

/-- Claim C2: a cancellation handled while the current goal location is a table
sets the Cancel-Pending flag and forces a return to the kitchen; whenever that
kitchen move succeeds (the flag having just been set), a return home is
additionally performed and the flag is cleared at the end of the sequence; if
the kitchen move fails, the flag remains set and only the kitchen target was
issued. -/
theorem C2_cancel_en_route_to_table (st : Butler) (loc : String) (kitchenOk : Bool)
    (hgoal : st.goal_location = some loc) (htab : strIn "table" loc = true) :
    (signal_handler st kitchenOk).1.state = CANCELED ∧
    (signal_handler st kitchenOk).2 =
      ["kitchen"] ++ (if kitchenOk then ["home"] else []) ∧
    (signal_handler st kitchenOk).1.is_goal_cancel = !kitchenOk := by
  have hk := table_loc_ne_kitchen loc htab
  cases kitchenOk with
  | true => simp [signal_handler, hgoal, hk, htab, return_to_kitchen]
  | false => simp [signal_handler, hgoal, hk, htab, return_to_kitchen]

theorem C2_cancel_en_route_to_table_witness :
    ((signal_handler ⟨DELIVERY, some "table2", ["table3"], false⟩ true).1.state =
      CANCELED ∧
    (signal_handler ⟨DELIVERY, some "table2", ["table3"], false⟩ true).2 =
      ["kitchen", "home"] ∧
    (signal_handler ⟨DELIVERY, some "table2", ["table3"], false⟩ true).1.is_goal_cancel =
      false) ∧
    ((signal_handler ⟨DELIVERY, some "table2", [], true⟩ false).2 = ["kitchen"] ∧
    (signal_handler ⟨DELIVERY, some "table2", [], true⟩ false).1.is_goal_cancel = true) :=
  ⟨C2_cancel_en_route_to_table ⟨DELIVERY, some "table2", ["table3"], false⟩ "table2" true
    rfl (by decide),
   ((C2_cancel_en_route_to_table ⟨DELIVERY, some "table2", [], true⟩ "table2" false
    rfl (by decide)).2 : _)⟩

/-- Claim C3: the drain loop serves destinations strictly in FIFO order of the
queue content observed at the moment each head is popped: a pop takes exactly
the head of the current queue (first conjunct), an uninterrupted drain visits
precisely the queued destinations in queue order (second conjunct), and a
destination absent from the queue and not yet visited — e.g. one just removed
by the modification listener before being popped — is never visited by any
continuation of the cycle that does not re-add it (third conjunct). -/
theorem C3_fifo_and_removal (b : Butler) (vis : List String) (t : String)
    (ts : List String) (s : CycleSt) (evs : List Ev) (x : String)
    (hs : b.state ≠ CANCELED) (hhead : b.order_queue = t :: ts)
    (hx1 : x ∉ s.butler.order_queue) (hx2 : x ∉ s.visited)
    (hx3 : ∀ inp, Ev.addEv inp ∈ evs → x ∉ (pySplit ',' inp).map tableName) :
    stepEv ⟨b, vis⟩ Ev.pop =
      ⟨{ b with order_queue := ts, goal_location := some t }, vis ++ [t]⟩ ∧
    (runEvs ⟨b, vis⟩ (List.replicate b.order_queue.length Ev.pop)).visited =
      vis ++ b.order_queue ∧
    x ∉ (runEvs s evs).visited :=
  ⟨by simp [stepEv, hs, hhead],
   (drain_pop_all b.order_queue b vis hs rfl).1,
   run_not_visited evs s x hx1 hx2 hx3⟩

theorem C3_fifo_and_removal_witness :
    stepEv ⟨⟨DELIVERY, none, ["table1", "table2"], false⟩, []⟩ Ev.pop =
      ⟨⟨DELIVERY, some "table1", ["table2"], false⟩, ["table1"]⟩ ∧
    (runEvs ⟨⟨DELIVERY, none, ["table1", "table2"], false⟩, []⟩
        (List.replicate (⟨DELIVERY, none, ["table1", "table2"], false⟩ :
          Butler).order_queue.length Ev.pop)).visited =
      [] ++ ["table1", "table2"] ∧
    "table1" ∉ (runEvs ⟨⟨DELIVERY, some "kitchen", ["table2"], false⟩, []⟩
        [Ev.pop, Ev.pop]).visited :=
  C3_fifo_and_removal ⟨DELIVERY, none, ["table1", "table2"], false⟩ [] "table1"
    ["table2"] ⟨⟨DELIVERY, some "kitchen", ["table2"], false⟩, []⟩ [Ev.pop, Ev.pop]
    "table1" (by decide) rfl (by decide) (by decide)
    (by intro inp h; simp at h)

/-- Counterexample to claim C4 as stated: duplicates are not suppressed on add.
The intake batch "1,1" on an empty queue appends "table1" twice (the intake
validation never consults the queue or the accumulating batch), and the
modification-listener batch "2,2" likewise appends "table2" twice (its check
is only against the queue as it was before the batch). -/
theorem C4_counterexample :
    (get_orders_step ⟨IDLE, none, [], false⟩ "1,1").1.order_queue =
      ["table1", "table1"] ∧
    ¬ ((get_orders_step ⟨IDLE, none, [], false⟩ "1,1").1.order_queue).Nodup ∧
    (add_tables ⟨DELIVERY, some "kitchen", [], false⟩ "2,2").order_queue =
      ["table2", "table2"] := by decide

theorem get_orders_queue (st : Butler) (input : String) :
    (get_orders_step st input).1.order_queue =
      st.order_queue ++ get_orders_valid input := by
  unfold get_orders_step
  dsimp only
  split
  · next h => simp [List.isEmpty_iff.mp h]
  · rfl

/-- Claim C4 (amended): after any add every element of the queue is a valid key
of the Waypoint registry (granted the elements present beforehand were); the
modification-listener add suppresses destinations already in the queue before
the batch, but not duplicates inside one batch; the intake-loop append performs
no duplicate suppression at all, so a destination can occur in the queue more
than once after an add. -/
theorem C4_add_validity_and_listener_dedup (st : Butler) (input : String)
    (x y : String)
    (hvalid : ∀ z ∈ st.order_queue, z ∈ WAYPOINTS)
    (hx : x ∈ (get_orders_step st input).1.order_queue)
    (hy : y ∈ add_tables_valid st.order_queue (pySplit ',' input)) :
    x ∈ WAYPOINTS ∧
    (add_tables st input).order_queue =
      st.order_queue ++ add_tables_valid st.order_queue (pySplit ',' input) ∧
    y ∈ WAYPOINTS ∧ y ∉ st.order_queue := by
  have hval1 : ∀ w, w ∈ get_orders_valid input → w ∈ WAYPOINTS := by
    intro w hw
    exact (contains_iff _ _).mp (List.of_mem_filter hw)
  have hyp := List.of_mem_filter hy
  rcases (Bool.and_eq_true _ _).mp hyp with ⟨hy1, hy2⟩
  refine ⟨?_, add_tables_queue st input, (contains_iff _ _).mp hy1, ?_⟩
  · rw [get_orders_queue] at hx
    rcases List.mem_append.mp hx with h | h
    · exact hvalid x h
    · exact hval1 x h
  · intro hmem
    rw [(contains_iff _ _).mpr hmem] at hy2
    simp at hy2

theorem C4_add_validity_and_listener_dedup_witness :
    "table2" ∈ WAYPOINTS ∧
    (add_tables ⟨DELIVERY, some "kitchen", ["table1"], false⟩ "2").order_queue =
      ["table1"] ++ add_tables_valid ["table1"] (pySplit ',' "2") ∧
    "table2" ∈ WAYPOINTS ∧ "table2" ∉ (["table1"] : List String) :=
  C4_add_validity_and_listener_dedup ⟨DELIVERY, some "kitchen", ["table1"], false⟩ "2"
    "table2" "table2" (by decide) (by decide) (by decide)

/-- Counterexample to claim C5 as stated: the external state reads `CANCELED`
at the check of the gate's only iteration, yet a "yes" received in that same
attempt breaks out of the loop before the check runs, and the gate returns
confirmed rather than not-confirmed. -/
theorem C5_counterexample :
    (wait_for_confirmation ⟨CANCELED, some "table1", [], false⟩ "table1"
      [(some "yes", true)] true).2.1 = true := by decide

/-- Claim C5 (amended): the gate's cancel check runs only after input handling,
so when the external state is `CANCELED` at an iteration whose attempt yields
no recognized yes/no input, the gate returns not-confirmed immediately — the
remaining window is not consumed and no recovery move is issued; a recognized
"yes" received in the same attempt instead takes precedence over cancellation. -/
theorem C5_cancel_preempts_unrecognized (st : Butler) (loc : String)
    (inp : Option String) (rest : List (Option String × Bool)) (kitchenOk : Bool)
    (h : recognizedAnswer inp = false) :
    wait_for_confirmation st loc ((inp, true) :: rest) kitchenOk =
      ({ st with goal_location := some loc }, false, []) := by
  cases inp with
  | none => simp [wait_for_confirmation, gate_loop]
  | some line =>
    simp only [recognizedAnswer, Bool.or_eq_false_iff] at h
    simp [wait_for_confirmation, gate_loop, h.1, h.2]

theorem C5_cancel_preempts_unrecognized_witness :
    wait_for_confirmation ⟨CANCELED, some "kitchen", ["table1"], false⟩ "kitchen"
      [(none, true), (some "yes", false)] true =
      (⟨CANCELED, some "kitchen", ["table1"], false⟩, false, []) :=
  C5_cancel_preempts_unrecognized ⟨CANCELED, some "kitchen", ["table1"], false⟩
    "kitchen" none [(some "yes", false)] true rfl

/-- Claim C6: a gate run whose whole window elapses with no recognized yes/no
input forces, at a table (a location containing "table"), a return to kitchen
then a return home and reports not-confirmed; at the kitchen or home it forces
a single return home and reports not-confirmed; a recognized "no" is reported
as declined with no forced recovery move. -/
theorem C6_timeout_recovery (st : Butler) (locTable locOther : String)
    (script scriptNo : List (Option String × Bool)) (kitchenOk : Bool)
    (hscript : ∀ p ∈ script, recognizedAnswer p.1 = false ∧ p.2 = false)
    (htab : strIn "table" locTable = true)
    (hoth : strIn "table" locOther = false)
    (hno : gate_loop scriptNo = GateEnd.noEnd) :
    ((wait_for_confirmation st locTable script kitchenOk).2.1 = false ∧
     (wait_for_confirmation st locTable script kitchenOk).2.2 =
       ["kitchen"] ++ (if kitchenOk && st.is_goal_cancel then ["home"] else []) ++
         ["home"]) ∧
    ((wait_for_confirmation st locOther script kitchenOk).2.1 = false ∧
     (wait_for_confirmation st locOther script kitchenOk).2.2 = ["home"]) ∧
    ((wait_for_confirmation st locTable scriptNo kitchenOk).2.1 = false ∧
     (wait_for_confirmation st locTable scriptNo kitchenOk).2.2 = []) := by
  have he := gate_loop_elapsed script hscript
  refine ⟨?_, ?_, ?_⟩
  · cases hb : kitchenOk && st.is_goal_cancel with
    | true => simp [wait_for_confirmation, he, htab, return_to_kitchen, hb]
    | false => simp [wait_for_confirmation, he, htab, return_to_kitchen, hb]
  · simp [wait_for_confirmation, he, hoth]
  · simp [wait_for_confirmation, hno]

theorem C6_timeout_recovery_witness :
    ((wait_for_confirmation ⟨DELIVERY, some "table1", ["table1"], false⟩ "table1"
        [(none, false), (some "ok", false)] true).2.1 = false ∧
     (wait_for_confirmation ⟨DELIVERY, some "table1", ["table1"], false⟩ "table1"
        [(none, false), (some "ok", false)] true).2.2 = ["kitchen", "home"]) ∧
    ((wait_for_confirmation ⟨DELIVERY, some "table1", ["table1"], false⟩ "kitchen"
        [(none, false), (some "ok", false)] true).2.1 = false ∧
     (wait_for_confirmation ⟨DELIVERY, some "table1", ["table1"], false⟩ "kitchen"
        [(none, false), (some "ok", false)] true).2.2 = ["home"]) ∧
    ((wait_for_confirmation ⟨DELIVERY, some "table1", ["table1"], false⟩ "table1"
        [(some " No ", false)] true).2.1 = false ∧
     (wait_for_confirmation ⟨DELIVERY, some "table1", ["table1"], false⟩ "table1"
        [(some " No ", false)] true).2.2 = []) :=
  C6_timeout_recovery ⟨DELIVERY, some "table1", ["table1"], false⟩ "table1" "kitchen"
    [(none, false), (some "ok", false)] [(some " No ", false)] true
    (by decide) (by decide) (by decide) (by decide)

/-- Claim C7: a listener removal that empties the order queue cancels the
in-flight kitchen goal, forces a home return and forces the state to `IDLE`;
from that point any continuation of the delivery cycle that re-adds nothing
visits no table, and the cycle epilogue returns home and ends in `IDLE`. -/
theorem C7_remove_to_empty_short_circuits (st : Butler) (input : String)
    (kitchenOk : Bool) (evs : List Ev)
    (hr : (modify_remove st input).retry = false)
    (hq : (modify_remove st input).butler.order_queue = [])
    (hevs : ∀ inp, Ev.addEv inp ∈ evs → False) :
    (modify_remove st input).butler.state = IDLE ∧
    (modify_remove st input).goal_canceled = true ∧
    (modify_remove st input).moves = ["home"] ∧
    (runEvs ⟨(modify_remove st input).butler, []⟩ evs).visited = [] ∧
    (process_order_finish (modify_remove st input).butler kitchenOk).1.state = IDLE ∧
    (process_order_finish (modify_remove st input).butler kitchenOk).2 = ["home"] := by
  have hchar : (modify_remove st input).retry = false →
      (modify_remove st input).butler.order_queue = [] →
      (modify_remove st input).butler.state = IDLE ∧
      (modify_remove st input).goal_canceled = true ∧
      (modify_remove st input).moves = ["home"] := by
    unfold modify_remove
    dsimp only
    split
    · intro hfalse _
      simp at hfalse
    · split
      · intro _ _
        exact ⟨rfl, rfl, rfl⟩
      · next h2 =>
        intro _ hq2
        dsimp only at hq2
        rw [hq2] at h2
        simp at h2
  have hstate := hchar hr hq
  have hvis : (runEvs ⟨(modify_remove st input).butler, []⟩ evs).visited = [] := by
    rw [List.eq_nil_iff_forall_not_mem]
    intro x
    refine run_not_visited evs ⟨(modify_remove st input).butler, []⟩ x ?_ ?_ ?_
    · rw [hq]
      exact List.not_mem_nil x
    · exact List.not_mem_nil x
    · intro inp hmem
      exact absurd hmem (fun h => hevs inp h)
  have hfin : process_order_finish (modify_remove st input).butler kitchenOk =
      ({ (modify_remove st input).butler with state := IDLE }, ["home"]) := by
    unfold process_order_finish
    rw [hstate.1]
    rw [if_neg (by decide : ¬ (IDLE = CANCELED))]
  refine ⟨hstate.1, hstate.2.1, hstate.2.2, hvis, ?_, ?_⟩
  · rw [hfin]
  · rw [hfin]

theorem C7_remove_to_empty_short_circuits_witness :
    (modify_remove ⟨DELIVERY, some "kitchen", ["table1"], false⟩ "1").butler.state =
      IDLE ∧
    (modify_remove ⟨DELIVERY, some "kitchen", ["table1"], false⟩ "1").goal_canceled =
      true ∧
    (modify_remove ⟨DELIVERY, some "kitchen", ["table1"], false⟩ "1").moves =
      ["home"] ∧
    (runEvs ⟨(modify_remove ⟨DELIVERY, some "kitchen", ["table1"], false⟩ "1").butler,
        []⟩ [Ev.pop, Ev.pop]).visited = [] ∧
    (process_order_finish
      (modify_remove ⟨DELIVERY, some "kitchen", ["table1"], false⟩ "1").butler
        true).1.state = IDLE ∧
    (process_order_finish
      (modify_remove ⟨DELIVERY, some "kitchen", ["table1"], false⟩ "1").butler
        true).2 = ["home"] :=
  C7_remove_to_empty_short_circuits ⟨DELIVERY, some "kitchen", ["table1"], false⟩ "1"
    true [Ev.pop, Ev.pop] (by decide) (by decide) (by intro inp h; simp at h)

/-- Claim C8: an intake batch in which no entry validates against the Waypoint
registry leaves the order queue and the logical state unchanged (the whole
object is untouched) and starts no delivery cycle. -/
theorem C8_invalid_batch_is_noop (st : Butler) (order_input : String)
    (h : ∀ t ∈ pySplit ',' order_input, tableName t ∉ WAYPOINTS) :
    get_orders_step st order_input = (st, false) := by
  have hempty : get_orders_valid order_input = [] := by
    unfold get_orders_valid
    rw [List.filter_eq_nil_iff]
    intro n hn
    rcases List.mem_map.mp hn with ⟨t, ht, rfl⟩
    intro hcon
    exact h t ht ((contains_iff _ _).mp hcon)
  simp [get_orders_step, hempty]

theorem C8_invalid_batch_is_noop_witness :
    get_orders_step ⟨IDLE, none, ["table3"], false⟩ "table99, table100" =
      (⟨IDLE, none, ["table3"], false⟩, false) :=
  C8_invalid_batch_is_noop ⟨IDLE, none, ["table3"], false⟩ "table99, table100"
    (by decide)

/-- Claim C9 evidence: the transcribed execution paths violate the stated lock
discipline at concrete actions.  `process_order` reads and writes the order
queue and the logical state with the lock not held (every access after line
143's release, in particular the pop at line 162); the modification listener
accesses both without ever taking the lock; and `signal_handler` holds the lock
across a blocking navigation call (the `return_to_kitchen` at line 62, inside
the acquire/release of lines 50 and 67). -/
theorem C9_lock_discipline_violations :
    ((lockAnnotated process_order_acts false).filter
      (fun p => sharedAccess p.1 && !p.2)).length = 7 ∧
    (lockAnnotated process_order_acts false).contains (Act.writeQueue, false) = true ∧
    (lockAnnotated modify_orders_acts false).all (fun p => !p.2) = true ∧
    (lockAnnotated modify_orders_acts false).contains (Act.writeQueue, false) = true ∧
    (lockAnnotated signal_handler_acts false).contains (Act.navBlocking, true) = true := by
  decide

theorem table_append_data (x : String) :
    ("table" ++ x).data = 't' :: 'a' :: 'b' :: 'l' :: 'e' :: x.data := by
  cases x with
  | mk l => rfl

theorem tableName_mem_iff (e : String) :
    tableName e ∈ WAYPOINTS ↔ pyStrip e ∈ (["1", "2", "3"] : List String) := by
  constructor
  · intro h
    unfold tableName at h
    simp only [WAYPOINTS, List.mem_cons, List.not_mem_nil, or_false] at h
    rcases h with h | h | h | h | h
    · have hd := congrArg String.data h
      rw [table_append_data] at hd
      rw [show ("kitchen" : String).data = ['k', 'i', 't', 'c', 'h', 'e', 'n'] from rfl]
        at hd
      injection hd with hch
      exact absurd hch (by decide)
    · have hd := congrArg String.data h
      rw [table_append_data] at hd
      rw [show ("home" : String).data = ['h', 'o', 'm', 'e'] from rfl] at hd
      injection hd with hch
      exact absurd hch (by decide)
    · have he := table_append_cancel (pyStrip e) "1" (h.trans (by decide))
      simp [he]
    · have he := table_append_cancel (pyStrip e) "2" (h.trans (by decide))
      simp [he]
    · have he := table_append_cancel (pyStrip e) "3" (h.trans (by decide))
      simp [he]
  · intro h
    unfold tableName
    simp only [List.mem_cons, List.not_mem_nil, or_false] at h
    rcases h with h | h | h <;> rw [h] <;> decide

/-- Claim C10: an entry that already carries the "table" prefix is prefixed
again by the validation (producing e.g. "tabletable1") and is therefore never
accepted — neither by the intake loop nor by the listener add — even though
the corresponding waypoint exists; in general an entry is accepted exactly
when its stripped text is the bare numeric identifier of a defined table. -/
theorem C10_prefixed_entries_rejected (name e : String) (q : List String)
    (hname : name ∈ WAYPOINTS) :
    tableName name ∉ WAYPOINTS ∧
    get_orders_valid name = [] ∧
    add_tables_valid q [name] = [] ∧
    (tableName e ∈ WAYPOINTS ↔ pyStrip e ∈ (["1", "2", "3"] : List String)) := by
  have h5 : name = "kitchen" ∨ name = "home" ∨ name = "table1" ∨ name = "table2" ∨
      name = "table3" := by simpa [WAYPOINTS] using hname
  have hnotin : tableName name ∉ WAYPOINTS := by
    rcases h5 with rfl | rfl | rfl | rfl | rfl <;> decide
  have hne : WAYPOINTS.contains (tableName name) = false := by
    cases hcc : WAYPOINTS.contains (tableName name) with
    | false => rfl
    | true => exact absurd ((contains_iff _ _).mp hcc) hnotin
  have hgo : get_orders_valid name = [] := by
    rcases h5 with rfl | rfl | rfl | rfl | rfl <;> decide
  have hadd : add_tables_valid q [name] = [] := by
    unfold add_tables_valid
    rw [List.filter_eq_nil_iff]
    intro a ha
    simp only [List.map_cons, List.map_nil, List.mem_singleton] at ha
    subst ha
    rw [hne]
    simp
  exact ⟨hnotin, hgo, hadd, tableName_mem_iff e⟩

theorem C10_prefixed_entries_rejected_witness :
    tableName "table1" ∉ WAYPOINTS ∧
    get_orders_valid "table1" = [] ∧
    add_tables_valid ["table2"] ["table1"] = [] ∧
    (tableName "table1" ∈ WAYPOINTS ↔
      pyStrip "table1" ∈ (["1", "2", "3"] : List String)) :=
  C10_prefixed_entries_rejected "table1" "table1" ["table2"] (by decide)
